import Mathlib

/-!
Shallow embedding of `src/src/server/keyboard_interface.cpp` (KWayland server,
`KeyboardInterface` and its `Private` implementation class).

The wire transport (libwayland) is external: we record every call the binding
makes into it (event sends, resource destruction, out-of-memory posts) and every
Qt signal (dis)connection as an `Act` in an emitted trace.  The seat is an
external collaborator read through its accessors, embedded as a record of the
values those accessors return.  `Q_ASSERT` aborts in debug builds; an operation
guarded by it is embedded as `Except Err`, returning `Err.assertFailure` when the
asserted condition is false (no event is emitted on that path).  Machine
integers (`quint32`, `uint32_t`) only flow through unmodified here, so they are
embedded as `Nat`; file descriptors as `Int`.
-/

/-- The seat collaborator (`SeatInterface`), embedded as the values its
accessors used by `keyboard_interface.cpp` return. -/
structure SeatInterface where
  isKeymapXkbCompatible : Bool
  keymapFileDescriptor : Int
  keymapSize : Nat
  pressedKeys : List Nat
  timestamp : Nat
  depressedModifiers : Nat
  latchedModifiers : Nat
  lockedModifiers : Nat
  groupModifiers : Nat
  lastModifiersSerial : Nat
deriving DecidableEq, Repr

/-- `WL_KEYBOARD_KEYMAP_FORMAT_*` constants. -/
inductive KeymapFormat
  | noKeymap
  | xkbV1
deriving DecidableEq, Repr

/-- `WL_KEYBOARD_KEY_STATE_*` constants. -/
inductive KeyState
  | released
  | pressed
deriving DecidableEq, Repr

/-- Wire events sent by the binding (`wl_keyboard_send_*`).  Each carries the
value of `d->resource` at send time (the handle the event is sent on); surfaces
are identified by the id of their wire resource (`SurfaceInterface::resource()`). -/
inductive Event
  | keymap (res : Option Nat) (format : KeymapFormat) (fd : Int) (size : Nat)
  | enter (res : Option Nat) (serial : Nat) (surface : Nat) (keys : List Nat)
  | leave (res : Option Nat) (serial : Nat) (surface : Nat)
  | key (res : Option Nat) (serial : Nat) (time : Nat) (keycode : Nat) (state : KeyState)
  | modifiers (res : Option Nat) (serial depressed latched locked group : Nat)
deriving DecidableEq, Repr

/-- One observable step the binding performs against the transport, the OS
(fd open/close for the placeholder keymap), or Qt's connection machinery. -/
inductive Act
  | ev (e : Event)
  | openFd (fd : Int)
  | closeFd (fd : Int)
  | connectDestroy (surface : Nat)
  | disconnectDestroy
  | destroyHandle (h : Nat)
  | postNoMemory
deriving DecidableEq, Repr

/-- Fatal local defects: a failed `Q_ASSERT`. -/
inductive Err
  | assertFailure
deriving DecidableEq, Repr

/-- The state of `KeyboardInterface::Private`: the seat back-reference, the
focused surface (nullable), the `destroyConnection` subscription token (the
surface whose `destroyed` signal is connected, if any), and the wire resource
handle (nullable). -/
structure KeyboardPrivate where
  seat : SeatInterface
  focusedSurface : Option Nat := none
  destroyConnection : Option Nat := none
  resource : Option Nat := none
deriving DecidableEq, Repr

/-- `Private::sendKeymap(int fd, quint32 size)`: asserts the resource, then
sends a keymap event in `XKB_V1` format. -/
def sendKeymapFd (fd : Int) (size : Nat) (st : KeyboardPrivate) : Except Err (List Act) :=
  if st.resource.isSome then
    Except.ok [Act.ev (Event.keymap st.resource KeymapFormat.xkbV1 fd size)]
  else Except.error Err.assertFailure

/-- `Private::sendKeymap()`: asserts the resource; if the seat's keymap is XKB
compatible, delegates to `sendKeymapFd` with the seat's fd and size; otherwise
opens `/dev/null` (the fd the OS hands back is the parameter `nullFd`), sends a
`NO_KEYMAP` event with that fd and size 0, and closes the fd. -/
def sendKeymap (nullFd : Int) (st : KeyboardPrivate) : Except Err (List Act) :=
  if st.resource.isSome then
    if st.seat.isKeymapXkbCompatible then
      sendKeymapFd st.seat.keymapFileDescriptor st.seat.keymapSize st
    else
      Except.ok [Act.openFd nullFd,
                 Act.ev (Event.keymap st.resource KeymapFormat.noKeymap nullFd 0),
                 Act.closeFd nullFd]
  else Except.error Err.assertFailure

/-- `Private::sendModifiers(depressed, latched, locked, group, serial)`:
asserts the resource, then sends a modifiers event. -/
def sendModifiersArgs (depressed latched locked group serial : Nat)
    (st : KeyboardPrivate) : Except Err (List Act) :=
  if st.resource.isSome then
    Except.ok [Act.ev (Event.modifiers st.resource serial depressed latched locked group)]
  else Except.error Err.assertFailure

/-- `Private::sendModifiers()`: reads the seat's current modifier state and
serial and delegates. -/
def sendModifiers (st : KeyboardPrivate) : Except Err (List Act) :=
  sendModifiersArgs st.seat.depressedModifiers st.seat.latchedModifiers
    st.seat.lockedModifiers st.seat.groupModifiers st.seat.lastModifiersSerial st

/-- `Private::createInterfae`: asks the transport for a wire resource
(`wl_resource_create`; `alloc` is the handle it returns, `none` on allocation
failure).  On failure, posts out-of-memory on the parent resource and returns.
On success, stores the handle, attaches the implementation and unbind callback,
and sends the initial keymap event. -/
def createInterfae (alloc : Option Nat) (nullFd : Int) (st : KeyboardPrivate) :
    Except Err (KeyboardPrivate × List Act) :=
  match alloc with
  | none => Except.ok (st, [Act.postNoMemory])
  | some k =>
    let st1 : KeyboardPrivate := { st with resource := some k }
    match sendKeymap nullFd st1 with
    | Except.error e => Except.error e
    | Except.ok tr => Except.ok (st1, tr)

/-- `Private::unbind`: invoked by the transport when the client releases the
object or disconnects; it only nulls the stored handle reference. -/
def unbind (st : KeyboardPrivate) : KeyboardPrivate × List Act :=
  ({ st with resource := none }, [])

/-- `Private::releaseCallback` (wl_keyboard version 3 `release` request):
ignores the client argument and calls `unbind`. -/
def releaseCallback (st : KeyboardPrivate) : KeyboardPrivate × List Act :=
  unbind st

/-- `KeyboardInterface::setFocusedSurface(surface, serial)`: if a surface is
focused, sends a leave event for it (on `d->resource`, with the given serial)
and disconnects the destroy-subscription; replaces the focus reference; if the
new surface is null, stops; otherwise connects to the new surface's `destroyed`
signal, builds the pressed-key array from the seat, sends an enter event, and
pushes the seat's current modifiers. -/
def setFocusedSurface (surface : Option Nat) (serial : Nat) (st : KeyboardPrivate) :
    Except Err (KeyboardPrivate × List Act) :=
  let leaveTr : List Act :=
    match st.focusedSurface with
    | some prev => [Act.ev (Event.leave st.resource serial prev), Act.disconnectDestroy]
    | none => []
  let stA : KeyboardPrivate :=
    match st.focusedSurface with
    | some _ => { st with destroyConnection := none, focusedSurface := surface }
    | none => { st with focusedSurface := surface }
  match surface with
  | none => Except.ok (stA, leaveTr)
  | some s =>
    let stB : KeyboardPrivate := { stA with destroyConnection := some s }
    match sendModifiers stB with
    | Except.error e => Except.error e
    | Except.ok modTr =>
        Except.ok (stB,
          leaveTr ++
          [Act.connectDestroy s,
           Act.ev (Event.enter st.resource serial s st.seat.pressedKeys)] ++
          modTr)

/-- The lambda connected to the focused surface's `destroyed` signal: clears
the focus reference and emits nothing.  The callback only runs while the
subscription is active for that surface; Qt drops the connection itself when
the sender is destroyed. -/
def surfaceDestroyed (s : Nat) (st : KeyboardPrivate) : KeyboardPrivate × List Act :=
  if st.destroyConnection = some s then
    ({ st with focusedSurface := none, destroyConnection := none }, [])
  else (st, [])

/-- `KeyboardInterface::keyPressed`: asserts a focused surface, then sends a
key event with the seat's timestamp and `PRESSED` state. -/
def keyPressed (key serial : Nat) (st : KeyboardPrivate) : Except Err (List Act) :=
  if st.focusedSurface.isSome then
    Except.ok [Act.ev (Event.key st.resource serial st.seat.timestamp key KeyState.pressed)]
  else Except.error Err.assertFailure

/-- `KeyboardInterface::keyReleased`: asserts a focused surface, then sends a
key event with the seat's timestamp and `RELEASED` state. -/
def keyReleased (key serial : Nat) (st : KeyboardPrivate) : Except Err (List Act) :=
  if st.focusedSurface.isSome then
    Except.ok [Act.ev (Event.key st.resource serial st.seat.timestamp key KeyState.released)]
  else Except.error Err.assertFailure

/-- `KeyboardInterface::updateModifiers`: asserts a focused surface, then
delegates to `sendModifiersArgs` with the given values. -/
def updateModifiers (depressed latched locked group serial : Nat)
    (st : KeyboardPrivate) : Except Err (List Act) :=
  if st.focusedSurface.isSome then
    sendModifiersArgs depressed latched locked group serial st
  else Except.error Err.assertFailure

/-- `KeyboardInterface::~KeyboardInterface()`: if a resource is still held,
destroys it via the transport (`wl_resource_destroy`); otherwise does nothing. -/
def destructorActions (st : KeyboardPrivate) : List Act :=
  match st.resource with
  | some h => [Act.destroyHandle h]
  | none => []

/-- Modelled from the spec: the wire transport's teardown protocol is missing
from `src/` (libwayland is the out-of-scope transport).  Per the spec,
`destroyObject` is "used only for owner-initiated teardown" and either side
"may trigger teardown, never both": the transport invokes the unbind callback
at most once and never for a handle the owner has already destroyed.  The two
possible teardown interleavings for one binding are therefore: the transport
unbinds first and the owner's destructor runs later, or the owner's destructor
runs with the handle still held and no unbind ever fires for it. -/
def teardownTrace (clientFirst : Bool) (st : KeyboardPrivate) : List Act :=
  if clientFirst then (unbind st).2 ++ destructorActions (unbind st).1
  else destructorActions st

/-- Recognizer for leave events in a trace. -/
def isLeave : Act → Bool
  | Act.ev (Event.leave _ _ _) => true
  | _ => false

/-- Recognizer for enter events in a trace. -/
def isEnter : Act → Bool
  | Act.ev (Event.enter _ _ _ _) => true
  | _ => false

/-- Recognizer for keymap events in a trace. -/
def isKeymapEv : Act → Bool
  | Act.ev (Event.keymap _ _ _ _) => true
  | _ => false

/-- Recognizer for destroy-subscription establishment in a trace. -/
def isConnect : Act → Bool
  | Act.connectDestroy _ => true
  | _ => false

/-- Recognizer for `wl_resource_destroy` calls in a trace. -/
def isDestroy : Act → Bool
  | Act.destroyHandle _ => true
  | _ => false

/-- Number of leave events in a trace. -/
def countLeave (tr : List Act) : Nat := (tr.filter isLeave).length

/-- Number of keymap events in a trace. -/
def countKeymap (tr : List Act) : Nat := (tr.filter isKeymapEv).length

/-- Number of `wl_resource_destroy` calls in a trace. -/
def countDestroy (tr : List Act) : Nat := (tr.filter isDestroy).length

/-- Every leave event in the trace occurs strictly before every enter event:
no earlier element is an enter when a later one is a leave. -/
def leaveBeforeEnter (tr : List Act) : Prop :=
  tr.Pairwise (fun a b => ¬(isEnter a = true ∧ isLeave b = true))

/-- Every destroy-subscription establishment occurs strictly after some enter
event (the ordering the spec asserts). -/
def connectOnlyAfterEnter (tr : List Act) : Prop :=
  ∀ i : Fin tr.length, isConnect (tr.get i) = true →
    ∃ j : Fin tr.length, isEnter (tr.get j) = true ∧ (j : Nat) < (i : Nat)

/-- Every destroy-subscription establishment occurs strictly before every enter
event (the ordering the code actually implements): no earlier element is an
enter when a later one is a connect. -/
def connectBeforeEnter (tr : List Act) : Prop :=
  tr.Pairwise (fun a b => ¬(isEnter a = true ∧ isConnect b = true))

/-- A concrete seat whose keymap is XKB-compatible (fd 3, size 1024, pressed
keys 30 and 31, modifier serial 3). -/
def seatXkb : SeatInterface :=
  { isKeymapXkbCompatible := true
    keymapFileDescriptor := 3
    keymapSize := 1024
    pressedKeys := [30, 31]
    timestamp := 100
    depressedModifiers := 1
    latchedModifiers := 0
    lockedModifiers := 0
    groupModifiers := 0
    lastModifiersSerial := 3 }

/-- The same seat with a non-XKB keymap. -/
def seatNoXkb : SeatInterface := { seatXkb with isKeymapXkbCompatible := false }

/-- A bound binding (resource handle 1) with no focused surface. -/
def stBound : KeyboardPrivate := { seat := seatXkb, resource := some 1 }

/-- A bound binding focused on surface 5, with the destroy-subscription active. -/
def stFocused : KeyboardPrivate :=
  { seat := seatXkb, focusedSurface := some 5, destroyConnection := some 5, resource := some 1 }

/-- The modifiers event `Private::sendModifiers()` emits for a given state. -/
def modEvent (st : KeyboardPrivate) : Act :=
  Act.ev (Event.modifiers st.resource st.seat.lastModifiersSerial st.seat.depressedModifiers
    st.seat.latchedModifiers st.seat.lockedModifiers st.seat.groupModifiers)

/-- The trace of focusing surface 5 (serial 10) on `stBound`. -/
def trC2 : List Act :=
  [Act.connectDestroy 5,
   Act.ev (Event.enter (some 1) 10 5 [30, 31]),
   Act.ev (Event.modifiers (some 1) 3 1 0 0 0)]

/-- The trace of refocusing from surface 5 to surface 7 (serial 11) on
`stFocused`. -/
def trRefocus : List Act :=
  [Act.ev (Event.leave (some 1) 11 5),
   Act.disconnectDestroy,
   Act.connectDestroy 7,
   Act.ev (Event.enter (some 1) 11 7 [30, 31]),
   Act.ev (Event.modifiers (some 1) 3 1 0 0 0)]

/-- The binding state after refocusing `stFocused` onto surface 7. -/
def stRefocused : KeyboardPrivate :=
  { seat := seatXkb, focusedSurface := some 7, destroyConnection := some 7, resource := some 1 }

/-- An unbound binding over the XKB-compatible seat. -/
def stUnbound : KeyboardPrivate := { seat := seatXkb }

/-- An unbound binding over the non-XKB seat. -/
def stNoXkbUnbound : KeyboardPrivate := { seat := seatNoXkb }

/-- Case analysis of a successful `setFocusedSurface` call: the four possible
result traces and the corresponding state updates, by whether a surface was
focused before and whether the new surface is null. -/
theorem setFocusedSurface_cases (st : KeyboardPrivate) (surface : Option Nat) (serial : Nat)
    (st' : KeyboardPrivate) (tr : List Act)
    (h : setFocusedSurface surface serial st = Except.ok (st', tr)) :
    (st.focusedSurface = none ∧ surface = none ∧ tr = [] ∧
      st' = { st with focusedSurface := none }) ∨
    (∃ prev, st.focusedSurface = some prev ∧ surface = none ∧
      tr = [Act.ev (Event.leave st.resource serial prev), Act.disconnectDestroy] ∧
      st' = { st with destroyConnection := none, focusedSurface := none }) ∨
    (∃ s, st.focusedSurface = none ∧ surface = some s ∧
      tr = [Act.connectDestroy s,
            Act.ev (Event.enter st.resource serial s st.seat.pressedKeys),
            modEvent st] ∧
      st' = { st with focusedSurface := some s, destroyConnection := some s }) ∨
    (∃ prev s, st.focusedSurface = some prev ∧ surface = some s ∧
      tr = [Act.ev (Event.leave st.resource serial prev), Act.disconnectDestroy,
            Act.connectDestroy s,
            Act.ev (Event.enter st.resource serial s st.seat.pressedKeys),
            modEvent st] ∧
      st' = { st with focusedSurface := some s, destroyConnection := some s }) := by
  cases hf : st.focusedSurface with
  | none =>
    cases surface with
    | none =>
      left
      simp [setFocusedSurface, hf] at h
      exact ⟨rfl, rfl, h.2, h.1.symm⟩
    | some s =>
      right; right; left
      cases hres : st.resource with
      | none =>
        simp [setFocusedSurface, sendModifiers, sendModifiersArgs, hf, hres] at h
      | some r =>
        simp [setFocusedSurface, sendModifiers, sendModifiersArgs, hf, hres] at h
        refine ⟨s, rfl, rfl, ?_, ?_⟩
        · simp [← h.2, modEvent, hres]
        · simp [← h.1]
  | some prev =>
    cases surface with
    | none =>
      right; left
      simp [setFocusedSurface, hf] at h
      exact ⟨prev, rfl, rfl, h.2.symm, h.1.symm⟩
    | some s =>
      right; right; right
      cases hres : st.resource with
      | none =>
        simp [setFocusedSurface, sendModifiers, sendModifiersArgs, hf, hres] at h
      | some r =>
        simp [setFocusedSurface, sendModifiers, sendModifiersArgs, hf, hres] at h
        refine ⟨prev, s, rfl, rfl, ?_, ?_⟩
        · simp [← h.2, modEvent, hres]
        · simp [← h.1]

/-- C1: for every successful `setFocusedSurface` call, the trace contains at
most one leave event and every leave precedes every enter; when a surface was
focused at the start of the call, a leave event carrying the call's serial and
that previous surface IS emitted — it is the very first action of the call
(hence before any enter) and the trace's unique leave; and conversely a leave
event can only name the surface focused at the start of the call, carry the
call's serial, and be sent on the binding's current resource.  A focus period
ends exactly at the first subsequent `setFocusedSurface` call (or silent
destruction), so each period sees at most this one leave, strictly before the
next surface's enter. -/
theorem setFocusedSurface_leave_once_before_enter
    (st : KeyboardPrivate) (surface : Option Nat) (serial : Nat)
    (st' : KeyboardPrivate) (tr : List Act)
    (h : setFocusedSurface surface serial st = Except.ok (st', tr)) :
    countLeave tr ≤ 1 ∧ leaveBeforeEnter tr ∧
    (∀ prev, st.focusedSurface = some prev →
      tr.head? = some (Act.ev (Event.leave st.resource serial prev)) ∧ countLeave tr = 1) ∧
    ∀ r n p, Act.ev (Event.leave r n p) ∈ tr →
      st.focusedSurface = some p ∧ n = serial ∧ r = st.resource ∧ countLeave tr = 1 := by
  rcases setFocusedSurface_cases st surface serial st' tr h with
    ⟨hf, _, htr, _⟩ | ⟨prev, hf, _, htr, _⟩ | ⟨s, hf, _, htr, _⟩ | ⟨prev, s, hf, _, htr, _⟩ <;>
      subst htr
  · refine ⟨by decide, by simp [leaveBeforeEnter], ?_, ?_⟩
    · intro p hp
      rw [hf] at hp
      exact absurd hp (by simp)
    · intro r n p hmem
      simp at hmem
  · refine ⟨by simp [countLeave, isLeave], ?_, ?_, ?_⟩
    · simp [leaveBeforeEnter, isEnter, isLeave]
    · intro p hp
      rw [hf] at hp
      injection hp with hp2
      subst hp2
      exact ⟨rfl, by simp [countLeave, isLeave]⟩
    · intro r n p hmem
      simp at hmem
      obtain ⟨h1, h2, h3⟩ := hmem
      subst h1; subst h2; subst h3
      exact ⟨hf, rfl, rfl, by simp [countLeave, isLeave]⟩
  · refine ⟨by simp [countLeave, isLeave, modEvent], ?_, ?_, ?_⟩
    · simp [leaveBeforeEnter, isEnter, isLeave, modEvent]
    · intro p hp
      rw [hf] at hp
      exact absurd hp (by simp)
    · intro r n p hmem
      simp [modEvent] at hmem
  · refine ⟨by simp [countLeave, isLeave, modEvent], ?_, ?_, ?_⟩
    · simp [leaveBeforeEnter, isEnter, isLeave, modEvent]
    · intro p hp
      rw [hf] at hp
      injection hp with hp2
      subst hp2
      exact ⟨rfl, by simp [countLeave, isLeave, modEvent]⟩
    · intro r n p hmem
      simp [modEvent] at hmem
      obtain ⟨h1, h2, h3⟩ := hmem
      subst h1; subst h2; subst h3
      exact ⟨hf, rfl, rfl, by simp [countLeave, isLeave, modEvent]⟩

/-- Witness for C1 at the concrete refocus from surface 5 to surface 7: the
leave for surface 5 with serial 11 is emitted as the first action of the call
and is its unique leave, before the enter for surface 7. -/
theorem setFocusedSurface_leave_once_before_enter_witness :
    countLeave trRefocus ≤ 1 ∧ leaveBeforeEnter trRefocus ∧
    trRefocus.head? = some (Act.ev (Event.leave (some 1) 11 5)) ∧ countLeave trRefocus = 1 :=
  ⟨(setFocusedSurface_leave_once_before_enter stFocused (some 7) 11 stRefocused trRefocus rfl).1,
   (setFocusedSurface_leave_once_before_enter stFocused (some 7) 11 stRefocused trRefocus rfl).2.1,
   (setFocusedSurface_leave_once_before_enter stFocused (some 7) 11 stRefocused trRefocus rfl).2.2.1
     5 rfl⟩

/-- C2 counterexample: on the concrete bound, unfocused binding `stBound`,
focusing surface 5 emits the trace `trC2`, in which the destroy-subscription
is established strictly before the enter event — not after it, as the claim
states. -/
theorem setFocusedSurface_connect_after_enter_cx :
    setFocusedSurface (some 5) 10 stBound = Except.ok (stFocused, trC2) ∧
    ¬ connectOnlyAfterEnter trC2 :=
  ⟨rfl, by unfold connectOnlyAfterEnter trC2; decide⟩

/-- C2 (amended): for every successful `setFocusedSurface` call with a
non-null surface, the destroy-subscription on that surface is established
(and appears in the trace) strictly before — not after — the enter event
referencing the surface is queued. -/
theorem setFocusedSurface_connect_before_enter
    (st : KeyboardPrivate) (s serial : Nat) (st' : KeyboardPrivate) (tr : List Act)
    (h : setFocusedSurface (some s) serial st = Except.ok (st', tr)) :
    Act.connectDestroy s ∈ tr ∧ connectBeforeEnter tr := by
  rcases setFocusedSurface_cases st (some s) serial st' tr h with
    ⟨_, hn, _⟩ | ⟨_, _, hn, _⟩ | ⟨t, _, hs, htr, _⟩ | ⟨prev, t, _, hs, htr, _⟩
  · exact absurd hn (by simp)
  · exact absurd hn (by simp)
  · injection hs with hst
    subst hst; subst htr
    exact ⟨by simp, by simp [connectBeforeEnter, isEnter, isConnect, modEvent]⟩
  · injection hs with hst
    subst hst; subst htr
    exact ⟨by simp, by simp [connectBeforeEnter, isEnter, isConnect, modEvent]⟩

/-- Witness for the amended C2 at the concrete focus of surface 5 on `stBound`. -/
theorem setFocusedSurface_connect_before_enter_witness :
    Act.connectDestroy 5 ∈ trC2 ∧ connectBeforeEnter trC2 :=
  setFocusedSurface_connect_before_enter stBound 5 10 stFocused trC2 rfl

/-- C7: whenever a surface becomes focused via `setFocusedSurface`, its
external destruction afterwards clears the focus reference (a subsequent
`focusedSurface()` read returns null) and emits nothing — in particular no
leave event. -/
theorem surfaceDestroyed_silent
    (st : KeyboardPrivate) (s serial : Nat) (st1 : KeyboardPrivate) (tr : List Act)
    (h : setFocusedSurface (some s) serial st = Except.ok (st1, tr)) :
    (surfaceDestroyed s st1).1.focusedSurface = none ∧
    (surfaceDestroyed s st1).2 = [] ∧
    countLeave (surfaceDestroyed s st1).2 = 0 := by
  rcases setFocusedSurface_cases st (some s) serial st1 tr h with
    ⟨_, hn, _⟩ | ⟨_, _, hn, _⟩ | ⟨t, _, hs, _, hst⟩ | ⟨prev, t, _, hs, _, hst⟩
  · exact absurd hn (by simp)
  · exact absurd hn (by simp)
  · injection hs with hst2
    subst hst2; subst hst
    simp [surfaceDestroyed, countLeave]
  · injection hs with hst2
    subst hst2; subst hst
    simp [surfaceDestroyed, countLeave]

/-- Witness for C7: destroying surface 5 on the concrete focused binding. -/
theorem surfaceDestroyed_silent_witness :
    (surfaceDestroyed 5 stFocused).1.focusedSurface = none ∧
    (surfaceDestroyed 5 stFocused).2 = [] :=
  ⟨(surfaceDestroyed_silent stBound 5 10 stFocused trC2 rfl).1,
   (surfaceDestroyed_silent stBound 5 10 stFocused trC2 rfl).2.1⟩

/-- C8: clearing focus when no surface is focused is a no-op — the call
succeeds, emits no events at all, and leaves the state unchanged. -/
theorem setFocusedSurface_null_noop (st : KeyboardPrivate) (serial : Nat)
    (h : st.focusedSurface = none) :
    setFocusedSurface none serial st = Except.ok (st, []) := by
  cases st with
  | mk seat fs dc res =>
    simp only at h
    subst h
    simp [setFocusedSurface]

/-- Witness for C8 on the concrete bound, unfocused binding. -/
theorem setFocusedSurface_null_noop_witness :
    stBound.focusedSurface = none ∧ setFocusedSurface none 12 stBound = Except.ok (stBound, []) :=
  ⟨rfl, setFocusedSurface_null_noop stBound 12 rfl⟩

/-- C3 counterexample: on the concrete focused binding, the transport's unbind
callback clears the stored handle but leaves the focus-change subscription
(`destroyConnection`) in place — it is not cleared, contrary to the claim. -/
theorem unbind_keeps_subscription_cx :
    (unbind stFocused).1.resource = none ∧
    (unbind stFocused).1.destroyConnection = some 5 ∧
    ¬(unbind stFocused).1.destroyConnection = none := by
  refine ⟨rfl, rfl, ?_⟩
  intro hc
  simp [unbind, stFocused] at hc

/-- C3 (amended): the unbind callback clears the stored handle reference and
performs no transport call (in particular it does not destroy the handle
again); it performs no other cleanup — the focus-change subscription, the
focus reference and the seat back-reference are all left untouched. -/
theorem unbind_clears_handle_only (st : KeyboardPrivate) :
    (unbind st).1.resource = none ∧
    (unbind st).2 = [] ∧
    countDestroy (unbind st).2 = 0 ∧
    (unbind st).1.destroyConnection = st.destroyConnection ∧
    (unbind st).1.focusedSurface = st.focusedSurface ∧
    (unbind st).1.seat = st.seat :=
  ⟨rfl, rfl, rfl, rfl, rfl, rfl⟩

/-- C4: a successful `createInterfae` stores the allocated handle and emits
exactly one keymap event, matching the seat's format at creation time: a
compatible seat yields an `XKB_V1` event carrying the seat's fd and size; an
incompatible seat yields a `NO_KEYMAP` event carrying the placeholder fd with
size 0, and the placeholder fd is closed before the call returns (the trace is
exactly open, send, close — no leak). -/
theorem createInterfae_keymap (st : KeyboardPrivate) (k : Nat) (nullFd : Int)
    (st' : KeyboardPrivate) (tr : List Act)
    (h : createInterfae (some k) nullFd st = Except.ok (st', tr)) :
    st'.resource = some k ∧
    countKeymap tr = 1 ∧
    (st.seat.isKeymapXkbCompatible = true →
      tr = [Act.ev (Event.keymap (some k) KeymapFormat.xkbV1
              st.seat.keymapFileDescriptor st.seat.keymapSize)]) ∧
    (st.seat.isKeymapXkbCompatible = false →
      tr = [Act.openFd nullFd,
            Act.ev (Event.keymap (some k) KeymapFormat.noKeymap nullFd 0),
            Act.closeFd nullFd]) := by
  cases hc : st.seat.isKeymapXkbCompatible
  · simp [createInterfae, sendKeymap, sendKeymapFd, hc] at h
    obtain ⟨h1, h2⟩ := h
    subst h1
    refine ⟨rfl, ?_, by simp, fun _ => h2.symm⟩
    simp [← h2, countKeymap, isKeymapEv]
  · simp [createInterfae, sendKeymap, sendKeymapFd, hc] at h
    obtain ⟨h1, h2⟩ := h
    subst h1
    refine ⟨rfl, ?_, fun _ => h2.symm, by simp [hc]⟩
    simp [← h2, countKeymap, isKeymapEv]

/-- Witness for C4 on the non-XKB seat: the placeholder fd 99 is opened, sent
with format `NO_KEYMAP` and size 0, and closed within the call. -/
theorem createInterfae_keymap_witness :
    countKeymap [Act.openFd 99,
                 Act.ev (Event.keymap (some 1) KeymapFormat.noKeymap 99 0),
                 Act.closeFd 99] = 1 :=
  (createInterfae_keymap stNoXkbUnbound 1 99 { seat := seatNoXkb, resource := some 1 }
    [Act.openFd 99, Act.ev (Event.keymap (some 1) KeymapFormat.noKeymap 99 0),
     Act.closeFd 99] rfl).2.1

/-- C5: when the transport refuses to allocate the wire handle,
`createInterfae` posts out-of-memory on the parent resource and returns with
the state unchanged: the binding stays `Unbound` (handle still null) and no
keymap event is emitted. -/
theorem createInterfae_alloc_failure (st : KeyboardPrivate) (nullFd : Int)
    (h : st.resource = none) :
    createInterfae none nullFd st = Except.ok (st, [Act.postNoMemory]) ∧
    (∀ st' tr, createInterfae none nullFd st = Except.ok (st', tr) →
      st'.resource = none ∧ countKeymap tr = 0) := by
  refine ⟨rfl, ?_⟩
  intro st' tr hok
  simp [createInterfae] at hok
  obtain ⟨h1, h2⟩ := hok
  subst h1
  subst h2
  exact ⟨h, by decide⟩

/-- Witness for C5 on the concrete unbound binding. -/
theorem createInterfae_alloc_failure_witness :
    createInterfae none 99 stUnbound = Except.ok (stUnbound, [Act.postNoMemory]) :=
  (createInterfae_alloc_failure stUnbound 99 rfl).1

/-- C6: with no focused surface, `keyPressed`, `keyReleased` and
`updateModifiers` all fail their `Q_ASSERT` precondition check and emit no
key or modifier event (the failing call produces no trace at all). -/
theorem key_events_require_focus (st : KeyboardPrivate) (key serial dep lat lock grp : Nat)
    (h : st.focusedSurface = none) :
    keyPressed key serial st = Except.error Err.assertFailure ∧
    keyReleased key serial st = Except.error Err.assertFailure ∧
    updateModifiers dep lat lock grp serial st = Except.error Err.assertFailure := by
  refine ⟨?_, ?_, ?_⟩ <;> simp [keyPressed, keyReleased, updateModifiers, h]

/-- Witness for C6 on the concrete bound, unfocused binding. -/
theorem key_events_require_focus_witness :
    keyPressed 30 5 stBound = Except.error Err.assertFailure ∧
    keyReleased 30 6 stBound = Except.error Err.assertFailure ∧
    updateModifiers 1 0 0 0 7 stBound = Except.error Err.assertFailure :=
  key_events_require_focus stBound 30 5 1 0 0 0 rfl

/-- C9: for a binding still holding a handle, the owner-initiated destructor
path destroys that handle exactly once and, per the spec-modelled transport
contract, no unbind fires for it afterwards; if the transport's unbind fired
first, the destructor performs no destroy.  Every teardown interleaving
destroys the handle at most once. -/
theorem teardown_exclusive (st : KeyboardPrivate) (h : Nat)
    (hres : st.resource = some h) :
    teardownTrace false st = [Act.destroyHandle h] ∧
    countDestroy (teardownTrace false st) = 1 ∧
    teardownTrace true st = [] ∧
    (∀ b, countDestroy (teardownTrace b st) ≤ 1) := by
  refine ⟨?_, ?_, ?_, ?_⟩
  · simp [teardownTrace, destructorActions, hres]
  · simp [teardownTrace, destructorActions, hres, countDestroy, isDestroy]
  · simp [teardownTrace, unbind, destructorActions]
  · intro b
    cases b <;>
      simp [teardownTrace, unbind, destructorActions, hres, countDestroy, isDestroy]

/-- Witness for C9 on the concrete bound binding (handle 1). -/
theorem teardown_exclusive_witness :
    teardownTrace false stBound = [Act.destroyHandle 1] ∧ teardownTrace true stBound = [] :=
  ⟨(teardown_exclusive stBound 1 rfl).1, (teardown_exclusive stBound 1 rfl).2.2.1⟩

/-- C10: the client-initiated release request is implemented as exactly the
transport unbind path — same resulting state, same (empty) trace: it nulls the
stored handle, performs no destroy of the wire object, and after either path
the destructor finds no handle and performs no destroy. -/
theorem releaseCallback_equals_unbind (st : KeyboardPrivate) :
    releaseCallback st = unbind st ∧
    (releaseCallback st).1.resource = none ∧
    (releaseCallback st).2 = [] ∧
    countDestroy (releaseCallback st).2 = 0 ∧
    destructorActions (releaseCallback st).1 = [] ∧
    destructorActions (unbind st).1 = [] :=
  ⟨rfl, rfl, rfl, rfl, rfl, rfl⟩
